import Mathlib

/-!
Verification of the `xbtests` timers survey program (`src/timers/main.c`).

The program samples three timer sources (performance counter, kernel tick
counter, CPU time stamp counter) in a loop, converts each to elapsed
milliseconds, prints them, sleeps, and finally reboots the console.

We shallowly embed the program: machine integers become `Nat` with explicit
reductions modulo `2^32` / `2^64` where the C code truncates; the inline
`divl` hardware instruction becomes a `Nat` division that faults (returns
`none`) exactly when the instruction would raise a divide error; the
observable behaviour of `main` becomes a trace of external calls, a function
of an environment supplying the counter readings and the `pb_init` result.
-/

namespace Xbtests

/-- Truncation to an unsigned 32-bit value. -/
def u32 (n : Nat) : Nat := n % 2 ^ 32

/-- Truncation to an unsigned 64-bit value. -/
def u64 (n : Nat) : Nat := n % 2 ^ 64

/-- Wrapping 64-bit unsigned subtraction `a - b` (for `a b < 2^64`). -/
def sub64 (a b : Nat) : Nat := (a + 2 ^ 64 - b) % 2 ^ 64

/-- `SAMPLE_STEP` from main.c line 34: loop step in milliseconds. -/
def SAMPLE_STEP : Nat := 1000

/-- `SAMPLE_END` from main.c line 35: total duration in milliseconds. -/
def SAMPLE_END : Nat := 315000

/-- `divl` from main.c lines 104-112: unsigned divide of a 64-bit dividend
by a 32-bit divisor via the x86 `divl` instruction.  The instruction divides
`edx:eax` (the dividend split into `hi`/`lo`) by the divisor, raising a
divide-error fault (modelled as `none`) when the divisor is zero or the true
quotient does not fit in 32 bits; otherwise `eax` holds the quotient.

The C function's inline asm declares only `quotient` (`eax`) as an output:
the local `_remainder` is never written by the asm, so when a non-NULL
`remainder` pointer is passed, `*remainder = _remainder` stores an
indeterminate (uninitialized) value.  We model that indeterminate value by
the explicit parameter `junk`.  `remainderPtr = none` models a NULL pointer;
`some r0` models a pointer to a cell currently holding `r0`.  The second
component of the result is the final contents of that cell (`none` when the
pointer was NULL and the store branch was not executed). -/
def divl (dividend divisor : Nat) (remainderPtr : Option Nat) (junk : Nat) :
    Option (Nat × Option Nat) :=
  if divisor = 0 ∨ 2 ^ 32 ≤ dividend / divisor then
    none
  else
    some (dividend / divisor,
      match remainderPtr with
      | some _ => some junk
      | none => none)

/-- `rdtsc` from main.c lines 89-94: the instruction reports the 64-bit
time stamp counter as 32-bit halves `hi` (`edx`) and `lo` (`eax`); the C
code returns `((long long) hi << 32) | lo`, i.e. the bit pattern with the
high half shifted into the upper 32 bits or-ed with the low half. -/
def rdtsc (hi lo : Nat) : Nat := (hi <<< 32) ||| lo

/-- `tsc_to_ms` from main.c lines 97-101: converts time stamp counter ticks
to milliseconds by dividing by the fixed frequency constant 733333
(cycles per millisecond), calling `divl` with a NULL remainder pointer.
Returns `none` if the division faults. -/
def tsc_to_ms (tsc : Nat) : Option Nat :=
  (divl tsc 733333 none 0).map Prod.fst

/-- `perf_delta` computation from main.c line 68:
`(ULONG)(perf_cur - perf_start) / perf_freq` — the 64-bit wrapping
difference is cast to 32 bits and then divided by the frequency in
ticks-per-millisecond.  (Callers guarantee `perf_freq ≠ 0`; the C division
would fault otherwise.) -/
def perf_delta (perf_cur perf_start perf_freq : Nat) : Nat :=
  u32 (sub64 perf_cur perf_start) / perf_freq

/-- `ticks_delta` computation from main.c line 69:
`ticks_cur - ticks_start`, a 64-bit wrapping difference assigned to a
32-bit `unsigned` variable, hence truncated to 32 bits. -/
def ticks_delta (ticks_cur ticks_start : Nat) : Nat :=
  u32 (sub64 ticks_cur ticks_start)

/-- Rendering of a 32-bit unsigned value through the `%d` conversion used
by the program's `printf` calls (main.c lines 74-76): the bit pattern is
interpreted as a signed 32-bit integer and printed in decimal. -/
def renderInt (v : Nat) : String :=
  if v < 2 ^ 31 then toString v else "-" ++ toString (2 ^ 32 - v)

/-- One observable external call made by the program. -/
inductive Event where
  | pbInit
  | showDebugScreen
  | queryPerfCounter
  | queryPerfFrequency
  | readTickCount
  | readTsc
  | divlCall (dividend divisor : Nat) (remainderPtr : Option Nat)
  | clearScreen
  | sleep (ms : Nat)
  | pbKill
  | reboot
  | printOut (s : String)
  deriving DecidableEq, Repr

/-- Environment: results of the external calls `main` makes.  `pbInitFails`
is whether `pb_init()` returns nonzero; the `...Start` fields are the
baseline readings; the `...Cur` fields give the reading returned by the
n-th in-loop query of each source; `perfFreqRaw` is the 64-bit value
returned by `KeQueryPerformanceFrequency()`. -/
structure Env where
  pbInitFails : Bool
  perfStart : Nat
  ticksStart : Nat
  tscStart : Nat
  perfFreqRaw : Nat
  perfCur : Nat → Nat
  ticksCur : Nat → Nat
  tscCur : Nat → Nat

/-- The call-site record of `tsc_to_ms`'s single call to `divl`
(main.c line 100): the remainder pointer argument is NULL. -/
def tsc_to_msEvents (tsc : Nat) : List Event :=
  [Event.divlCall tsc 733333 none]

/-- One iteration of the sampling loop body (main.c lines 62-77): re-read
the three counters, compute the three deltas, clear the screen and print
the three lines and a blank line.  `n` is the iteration index selecting the
environment's readings.  Returns `none` when the C code would fault
(division by a zero `perf_freq`, or `divl` overflow in `tsc_to_ms`). -/
def iterBody (env : Env) (perfFreq n : Nat) : Option (List Event) :=
  let perf_cur := u64 (env.perfCur n)
  let ticks_cur := u64 (env.ticksCur n)
  let tsc_cur := u64 (env.tscCur n)
  if perfFreq = 0 then none
  else
    let pd := perf_delta perf_cur (u64 env.perfStart) perfFreq
    let td := ticks_delta ticks_cur (u64 env.ticksStart)
    let tscDiff := sub64 tsc_cur (u64 env.tscStart)
    match tsc_to_ms tscDiff with
    | none => none
    | some sd =>
      some ([Event.queryPerfCounter, Event.readTickCount, Event.readTsc]
        ++ tsc_to_msEvents tscDiff
        ++ [Event.clearScreen,
            Event.printOut ("Performance Counter: " ++ renderInt pd ++ " ms elapsed\n"),
            Event.printOut ("       Tick Counter: " ++ renderInt td ++ " ms elapsed\n"),
            Event.printOut (" Time Stamp Counter: " ++ renderInt sd ++ " ms elapsed\n"),
            Event.printOut "\n"])

/-- The sampling loop (main.c lines 61-81):
`for (elapsed = 0; elapsed < SAMPLE_END; elapsed += SAMPLE_STEP)` — run an
iteration body, sleep `SAMPLE_STEP`, advance `elapsed`.  Structural `fuel`
bounds the recursion; since `SAMPLE_STEP ≥ 1`, fuel `SAMPLE_END` is always
sufficient and the out-of-fuel case is unreachable from `mainTrace`. -/
def mainLoop (env : Env) (perfFreq : Nat) : Nat → Nat → Nat → Option (List Event)
  | 0, _, _ => none
  | fuel + 1, elapsed, n =>
    if elapsed < SAMPLE_END then
      match iterBody env perfFreq n with
      | none => none
      | some evs =>
        (mainLoop env perfFreq fuel (elapsed + SAMPLE_STEP) (n + 1)).map
          (fun rest => evs ++ Event.sleep SAMPLE_STEP :: rest)
    else some []

/-- `main` from main.c lines 41-86, as the trace of external calls it makes.
If `pb_init()` fails: sleep 2000 ms and reboot.  Otherwise: show the debug
screen, capture the four baseline readings, run the sampling loop, then
`pb_kill()` and reboot.  `none` models a run that faults (see `iterBody`). -/
def mainTrace (env : Env) : Option (List Event) :=
  if env.pbInitFails then
    some [Event.pbInit, Event.sleep 2000, Event.reboot]
  else
    let perfFreq := u32 env.perfFreqRaw / 1000
    (mainLoop env perfFreq SAMPLE_END 0 0).map (fun loopEvs =>
      Event.pbInit :: Event.showDebugScreen ::
      Event.queryPerfCounter :: Event.queryPerfFrequency ::
      Event.readTickCount :: Event.readTsc ::
      (loopEvs ++ [Event.pbKill, Event.reboot]))

/-- The sequence of values the loop counter `elapsed` takes at the start of
each executed iteration of the `for` loop (main.c line 61), for a step
`step` and end bound `fin`; fuel-bounded exactly as `mainLoop` is. -/
def loopCountersAux (step fin : Nat) : Nat → Nat → List Nat
  | 0, _ => []
  | fuel + 1, elapsed =>
    if elapsed < fin then
      elapsed :: loopCountersAux step fin fuel (elapsed + step)
    else []

/-- The loop counter sequence starting from `elapsed = 0`. -/
def loopCounters (step fin : Nat) : List Nat :=
  loopCountersAux step fin fin 0

/-- Whether an event is part of the per-iteration display output
(a screen clear or a printed line). -/
def isDisplayEvent : Event → Bool
  | Event.clearScreen => true
  | Event.printOut _ => true
  | _ => false

/-- Whether an event is a `divl` call that was passed a non-NULL remainder
pointer (the only kind of call on which the store branch executes). -/
def remainderPtrSupplied : Event → Bool
  | Event.divlCall _ _ (some _) => true
  | _ => false

/-! ## Helper lemmas -/

/-- `divl` with a non-zero divisor and an in-range quotient returns the
true quotient. -/
lemma divl_eq_of_fit (D V : Nat) (p : Option Nat) (j : Nat) (hV : V ≠ 0)
    (hq : D / V < 2 ^ 32) :
    divl D V p j = some (D / V, p.map fun _ => j) := by
  have hcond : ¬ (V = 0 ∨ 2 ^ 32 ≤ D / V) := by
    push_neg
    exact ⟨hV, hq⟩
  unfold divl
  rw [if_neg hcond]
  cases p <;> rfl

/-- `tsc_to_ms` computes the true quotient by 733333 whenever it fits. -/
lemma tsc_to_ms_eq_of_fit (t : Nat) (hq : t / 733333 < 2 ^ 32) :
    tsc_to_ms t = some (t / 733333) := by
  rw [tsc_to_ms, divl_eq_of_fit t 733333 none 0 (by norm_num) hq]
  rfl

/-- For in-range, ordered operands the wrapping 64-bit subtraction is the
true difference. -/
lemma sub64_eq (a b : Nat) (hba : b ≤ a) (ha : a < 2 ^ 64) :
    sub64 a b = a - b := by
  rw [sub64]
  omega

/-! ## C1: the remainder output of `divl` -/

/-- C1: "divl(D, V, &r) returns a quotient Q and, when a remainder output
pointer is supplied, stores a remainder R, such that Q*V + R = D and
R < V."  The quotient is correct, but the asm block never outputs the
hardware remainder register: `*remainder` receives the uninitialized local
`_remainder` (modelled by the `junk` parameter).  At D = 7, V = 2 with the
indeterminate value 0, the call stores R = 0, yet Q*V + R = 6 ≠ 7: the code
contradicts the documented contract of its own remainder parameter. -/
theorem divl_remainder_uninitialized :
    divl 7 2 (some 0) 0 = some (3, some 0) ∧ 3 * 2 + 0 ≠ 7 := by
  constructor
  · rfl
  · decide

/-! ## C2: the performance-counter delta -/

/-- C2 counterexample: the claim "the performance-counter delta equals
(current − baseline) / f for every pair of 64-bit readings" fails, because
the code casts the 64-bit difference to 32 bits before dividing: at
current = 2^32, baseline = 0, f = 1 the code yields 0, not 2^32. -/
theorem perf_delta_truncation_cex :
    perf_delta (2 ^ 32) 0 1 = 0 ∧ (2 ^ 32 - 0) / 1 = 2 ^ 32 ∧
      perf_delta (2 ^ 32) 0 1 ≠ (2 ^ 32 - 0) / 1 := by
  refine ⟨?_, by norm_num, ?_⟩ <;> norm_num [perf_delta, sub64, u32]

/-- C2 (amended): for 64-bit readings with baseline ≤ current and frequency
f > 0, the performance-counter delta is ((current − baseline) mod 2^32) / f
— the 64-bit difference is truncated to 32 bits before the truncating
integer division; in particular with f = 3375 and a raw delta of 3374 the
computed delta is 0. -/
theorem perf_delta_spec :
    (∀ cur start f, start ≤ cur → cur < 2 ^ 64 → 0 < f →
      perf_delta cur start f = ((cur - start) % 2 ^ 32) / f) ∧
    perf_delta 3374 0 3375 = 0 := by
  constructor
  · intro cur start f hsc hc _
    rw [perf_delta, sub64_eq cur start hsc hc, u32]
  · rfl

/-- C2 witness: the amended theorem applied at current = 3374, baseline = 0,
f = 3375. -/
theorem perf_delta_spec_witness :
    perf_delta 3374 0 3375 = ((3374 - 0) % 2 ^ 32) / 3375 :=
  perf_delta_spec.1 3374 0 3375 (by norm_num) (by norm_num) (by norm_num)

/-! ## C4: tsc_to_ms computes the truncating division by 733333 -/

/-- C4: for every 64-bit cycle count whose true quotient fits in 32 bits,
`tsc_to_ms t` is the truncating integer division of t by 733333, computed
via `divl`; in particular `tsc_to_ms 0 = some 0`. -/
theorem tsc_to_ms_correct :
    (∀ t, t < 2 ^ 64 → t / 733333 < 2 ^ 32 → tsc_to_ms t = some (t / 733333)) ∧
    tsc_to_ms 0 = some 0 := by
  constructor
  · intro t _ hq
    exact tsc_to_ms_eq_of_fit t hq
  · rfl

/-- C4 witness: the theorem applied at t = 733333. -/
theorem tsc_to_ms_correct_witness : tsc_to_ms 733333 = some (733333 / 733333) :=
  tsc_to_ms_correct.1 733333 (by norm_num) (by norm_num)

/-! ## C6: the tick-counter delta -/

/-- C6 counterexample: the claim "the tick-counter delta equals the direct
integer subtraction current − baseline for every pair of readings" fails:
the 64-bit difference is assigned to a 32-bit variable, so at
current = 2^32, baseline = 0 the code yields 0, not 2^32. -/
theorem ticks_delta_truncation_cex :
    ticks_delta (2 ^ 32) 0 = 0 ∧ 2 ^ 32 - 0 = 2 ^ 32 ∧
      ticks_delta (2 ^ 32) 0 ≠ 2 ^ 32 - 0 := by
  refine ⟨?_, by norm_num, ?_⟩ <;> norm_num [ticks_delta, sub64, u32]

/-- C6 (amended): for 64-bit readings with baseline ≤ current, the
tick-counter delta is (current − baseline) mod 2^32 — the direct integer
subtraction truncated to the 32-bit delta variable, with no conversion or
scaling applied; in particular the delta for (current = 5000,
baseline = 1200) is 3800. -/
theorem ticks_delta_spec :
    (∀ cur start, start ≤ cur → cur < 2 ^ 64 →
      ticks_delta cur start = (cur - start) % 2 ^ 32) ∧
    ticks_delta 5000 1200 = 3800 := by
  constructor
  · intro cur start hsc hc
    rw [ticks_delta, sub64_eq cur start hsc hc, u32]
  · rfl

/-- C6 witness: the amended theorem applied at current = 5000,
baseline = 1200. -/
theorem ticks_delta_spec_witness :
    ticks_delta 5000 1200 = (5000 - 1200) % 2 ^ 32 :=
  ticks_delta_spec.1 5000 1200 (by norm_num) (by norm_num)

/-! ## C7: monotonicity of tsc_to_ms -/

/-- C7: `tsc_to_ms` is monotonically non-decreasing on the domain where the
true quotient fits in 32 bits. -/
theorem tsc_to_ms_mono :
    ∀ a b, a ≤ b → b < 2 ^ 64 → b / 733333 < 2 ^ 32 →
      ∃ ma mb, tsc_to_ms a = some ma ∧ tsc_to_ms b = some mb ∧ ma ≤ mb := by
  intro a b hab _ hbq
  have haq : a / 733333 < 2 ^ 32 :=
    lt_of_le_of_lt (Nat.div_le_div_right hab) hbq
  exact ⟨a / 733333, b / 733333, tsc_to_ms_eq_of_fit a haq,
    tsc_to_ms_eq_of_fit b hbq, Nat.div_le_div_right hab⟩

/-- C7 witness: the theorem applied at a = 0, b = 733333. -/
theorem tsc_to_ms_mono_witness :
    ∃ ma mb, tsc_to_ms 0 = some ma ∧ tsc_to_ms 733333 = some mb ∧ ma ≤ mb :=
  tsc_to_ms_mono 0 733333 (by norm_num) (by norm_num) (by norm_num)

/-! ## C9: rdtsc assembles the two 32-bit halves -/

/-- C9: `rdtsc` combines the two 32-bit halves into hi * 2^32 + lo, for
every pair of 32-bit halves. -/
theorem rdtsc_combines :
    ∀ hi lo, hi < 2 ^ 32 → lo < 2 ^ 32 → rdtsc hi lo = hi * 2 ^ 32 + lo := by
  intro hi lo _ hlo
  calc rdtsc hi lo = hi * 2 ^ 32 ||| lo := by rw [rdtsc, Nat.shiftLeft_eq]
    _ = 2 ^ 32 * hi ||| lo := by rw [Nat.mul_comm]
    _ = 2 ^ 32 * hi + lo := (Nat.mul_add_lt_is_or hlo hi).symm
    _ = hi * 2 ^ 32 + lo := by rw [Nat.mul_comm]

/-- C9 witness: the theorem applied at hi = 1, lo = 5. -/
theorem rdtsc_combines_witness : rdtsc 1 5 = 1 * 2 ^ 32 + 5 :=
  rdtsc_combines 1 5 (by norm_num) (by norm_num)

/-! ## C5: the sampling loop counter -/

/-- The i-th loop counter value produced from `elapsed` is
`elapsed + i * step`, as long as it is below the end bound, given enough
fuel for the loop to run to completion. -/
lemma loopCountersAux_getElem (step fin : Nat) :
    ∀ fuel elapsed i, fin ≤ elapsed + fuel * step →
      (loopCountersAux step fin fuel elapsed)[i]? =
        if elapsed + i * step < fin then some (elapsed + i * step) else none := by
  intro fuel
  induction fuel with
  | zero =>
    intro elapsed i h
    have h0 : fin ≤ elapsed := by simpa using h
    have hni : ¬ (elapsed + i * step < fin) := fun hc =>
      absurd (lt_of_le_of_lt (Nat.le_add_right elapsed (i * step)) hc)
        (not_lt.mpr h0)
    rw [if_neg hni]
    simp [loopCountersAux]
  | succ fuel ih =>
    intro elapsed i h
    simp only [loopCountersAux]
    by_cases hlt : elapsed < fin
    · rw [if_pos hlt]
      cases i with
      | zero => simp [hlt]
      | succ i =>
        have h' : fin ≤ elapsed + step + fuel * step := by
          rw [Nat.succ_mul] at h
          omega
        have hrw : elapsed + (i + 1) * step = elapsed + step + i * step := by
          rw [Nat.succ_mul]
          ring
        rw [List.getElem?_cons_succ, ih (elapsed + step) i h', hrw]
    · rw [if_neg hlt]
      have hni : ¬ (elapsed + i * step < fin) := fun hc =>
        absurd (lt_of_le_of_lt (Nat.le_add_right elapsed (i * step)) hc) hlt
      rw [if_neg hni]
      rfl

/-- C5: the loop counter starts at 0 and advances by the fixed step; the
i-th executed iteration sees counter value i * step and the loop terminates
exactly when the counter reaches or exceeds the end bound; with step = 1000
and total duration = 5000 exactly 5 iterations run, with counter values
0, 1000, 2000, 3000, 4000. -/
theorem loopCounters_spec :
    (∀ step fin i, 0 < step →
      (loopCounters step fin)[i]? =
        if i * step < fin then some (i * step) else none) ∧
    loopCounters 1000 5000 = [0, 1000, 2000, 3000, 4000] ∧
    (loopCounters 1000 5000).length = 5 := by
  refine ⟨?_, by rfl, by rfl⟩
  intro step fin i hstep
  have h1 : fin * 1 ≤ fin * step := Nat.mul_le_mul_left fin hstep
  have hfuel : fin ≤ 0 + fin * step := by omega
  have h := loopCountersAux_getElem step fin fin 0 i hfuel
  rw [loopCounters, h]
  simp

/-- C5 witness: the theorem applied at step = 1000, duration = 5000,
iteration index 2. -/
theorem loopCounters_spec_witness :
    (loopCounters 1000 5000)[2]? =
      if 2 * 1000 < 5000 then some (2 * 1000) else none :=
  loopCounters_spec.1 1000 5000 2 (by norm_num)

/-! ## C3: the per-iteration display output -/

/-- An iteration with a zero performance-counter frequency faults
(division by zero). -/
lemma iterBody_none_of_zero (env : Env) (n : Nat) : iterBody env 0 n = none := by
  simp [iterBody]

/-- An iteration whose `tsc_to_ms` conversion faults produces no events. -/
lemma iterBody_none_of_tsc (env : Env) (f n : Nat) (hf : f ≠ 0)
    (htsc : tsc_to_ms (sub64 (u64 (env.tscCur n)) (u64 env.tscStart)) = none) :
    iterBody env f n = none := by
  simp only [iterBody]
  rw [if_neg hf, htsc]

/-- Computation of a successful loop iteration: the counter reads, the
`divl` call record, the screen clear and the four prints. -/
lemma iterBody_eq (env : Env) (f n : Nat) (hf : f ≠ 0) (sd : Nat)
    (hsd : tsc_to_ms (sub64 (u64 (env.tscCur n)) (u64 env.tscStart)) = some sd) :
    iterBody env f n =
      some ([Event.queryPerfCounter, Event.readTickCount, Event.readTsc]
        ++ tsc_to_msEvents (sub64 (u64 (env.tscCur n)) (u64 env.tscStart))
        ++ [Event.clearScreen,
            Event.printOut ("Performance Counter: " ++
              renderInt (perf_delta (u64 (env.perfCur n)) (u64 env.perfStart) f) ++
              " ms elapsed\n"),
            Event.printOut ("       Tick Counter: " ++
              renderInt (ticks_delta (u64 (env.ticksCur n)) (u64 env.ticksStart)) ++
              " ms elapsed\n"),
            Event.printOut (" Time Stamp Counter: " ++ renderInt sd ++
              " ms elapsed\n"),
            Event.printOut "\n"]) := by
  simp only [iterBody]
  rw [if_neg hf, hsd]

/-- C3 (amended): on every non-faulting loop iteration the display is
cleared and then exactly three text lines of the shape
"Performance Counter: %d ms elapsed", "       Tick Counter: %d ms elapsed",
" Time Stamp Counter: %d ms elapsed" are emitted, followed by one blank
line — each delta is rendered through the `%d` conversion, i.e. as a
*signed* 32-bit decimal (which coincides with the unsigned decimal of the
claim only for deltas below 2^31). -/
theorem iterBody_display_spec :
    ∀ env f n evs sd, iterBody env f n = some evs →
      tsc_to_ms (sub64 (u64 (env.tscCur n)) (u64 env.tscStart)) = some sd →
      evs.filter isDisplayEvent =
        [Event.clearScreen,
         Event.printOut ("Performance Counter: " ++
           renderInt (perf_delta (u64 (env.perfCur n)) (u64 env.perfStart) f) ++
           " ms elapsed\n"),
         Event.printOut ("       Tick Counter: " ++
           renderInt (ticks_delta (u64 (env.ticksCur n)) (u64 env.ticksStart)) ++
           " ms elapsed\n"),
         Event.printOut (" Time Stamp Counter: " ++ renderInt sd ++
           " ms elapsed\n"),
         Event.printOut "\n"] := by
  intro env f n evs sd hevs hsd
  by_cases hf : f = 0
  · rw [hf, iterBody_none_of_zero] at hevs
    cases hevs
  · rw [iterBody_eq env f n hf sd hsd] at hevs
    injection hevs with hevs
    rw [← hevs]
    simp [isDisplayEvent, tsc_to_msEvents]

/-- The environment for the C3 witness: all readings zero, a performance
frequency of 3.375 MHz, `pb_init` succeeding. -/
def zeroEnv : Env :=
  Env.mk false 0 0 0 3375000 (fun _ => 0) (fun _ => 0) (fun _ => 0)

/-- The events of the first loop iteration under `zeroEnv`. -/
def zeroIterEvents : List Event :=
  [Event.queryPerfCounter, Event.readTickCount, Event.readTsc,
   Event.divlCall 0 733333 none,
   Event.clearScreen,
   Event.printOut "Performance Counter: 0 ms elapsed\n",
   Event.printOut "       Tick Counter: 0 ms elapsed\n",
   Event.printOut " Time Stamp Counter: 0 ms elapsed\n",
   Event.printOut "\n"]

/-- C3 witness: the amended theorem applied to the first iteration under
`zeroEnv` with frequency 3375 ticks/ms. -/
theorem iterBody_display_spec_witness :
    zeroIterEvents.filter isDisplayEvent =
      [Event.clearScreen,
       Event.printOut ("Performance Counter: " ++
         renderInt (perf_delta (u64 (zeroEnv.perfCur 0)) (u64 zeroEnv.perfStart) 3375) ++
         " ms elapsed\n"),
       Event.printOut ("       Tick Counter: " ++
         renderInt (ticks_delta (u64 (zeroEnv.ticksCur 0)) (u64 zeroEnv.ticksStart)) ++
         " ms elapsed\n"),
       Event.printOut (" Time Stamp Counter: " ++ renderInt 0 ++
         " ms elapsed\n"),
       Event.printOut "\n"] :=
  iterBody_display_spec zeroEnv 3375 0 zeroIterEvents 0 (by rfl) (by rfl)

/-- The environment for the C3 counterexample: the tick counter has
advanced by 2^31 milliseconds over the baseline. -/
def c3CexEnv : Env :=
  Env.mk false 0 0 0 3375000 (fun _ => 0) (fun _ => 2 ^ 31) (fun _ => 0)

/-- The events of the first loop iteration under `c3CexEnv`. -/
def c3CexEvents : List Event :=
  [Event.queryPerfCounter, Event.readTickCount, Event.readTsc,
   Event.divlCall 0 733333 none,
   Event.clearScreen,
   Event.printOut "Performance Counter: 0 ms elapsed\n",
   Event.printOut "       Tick Counter: -2147483648 ms elapsed\n",
   Event.printOut " Time Stamp Counter: 0 ms elapsed\n",
   Event.printOut "\n"]

/-- C3 counterexample: the claim "each delta rendered as an unsigned
decimal number" fails.  With a tick delta of 2^31, the iteration prints
"       Tick Counter: -2147483648 ms elapsed" (the `%d` conversion renders
the unsigned delta as a negative signed 32-bit value); the line carrying
the unsigned decimal rendering of the delta is not emitted. -/
theorem iterBody_unsigned_render_cex :
    iterBody c3CexEnv 3375 0 = some c3CexEvents ∧
    Event.printOut ("       Tick Counter: -2147483648 ms elapsed\n") ∈ c3CexEvents ∧
    Event.printOut ("       Tick Counter: " ++
      toString (ticks_delta (u64 (c3CexEnv.ticksCur 0)) (u64 c3CexEnv.ticksStart)) ++
      " ms elapsed\n") ∉ c3CexEvents := by
  refine ⟨by rfl, by decide, by decide⟩

/-! ## C8: the display-initialization error path -/

/-- An environment in which `pb_init()` fails. -/
def failEnv : Env :=
  Env.mk true 0 0 0 0 (fun _ => 0) (fun _ => 0) (fun _ => 0)

/-- C8: if display initialization fails, the program sleeps 2000 ms and
reboots — its whole trace is [pb_init, sleep 2000, reboot], with no
baseline capture and no loop iteration; this branch on the `pb_init`
result is the only conditional in `main`: on success every run shows the
debug screen, captures the four baseline readings, runs the sampling loop,
and ends with `pb_kill` and a reboot. -/
theorem mainTrace_structure :
    ∀ env,
      (env.pbInitFails = true →
        mainTrace env = some [Event.pbInit, Event.sleep 2000, Event.reboot]) ∧
      (env.pbInitFails = false →
        ∀ t, mainTrace env = some t →
          ∃ loopEvs,
            mainLoop env (u32 env.perfFreqRaw / 1000) SAMPLE_END 0 0 = some loopEvs ∧
            t = Event.pbInit :: Event.showDebugScreen ::
                Event.queryPerfCounter :: Event.queryPerfFrequency ::
                Event.readTickCount :: Event.readTsc ::
                (loopEvs ++ [Event.pbKill, Event.reboot])) := by
  intro env
  constructor
  · intro h
    simp [mainTrace, h]
  · intro h t ht
    simp only [mainTrace, h, Bool.false_eq_true, if_false] at ht
    rcases Option.map_eq_some'.mp ht with ⟨l, hl, hfl⟩
    exact ⟨l, hl, hfl.symm⟩

/-- C8 witness: the theorem applied to an environment where `pb_init`
fails. -/
theorem mainTrace_structure_witness :
    mainTrace failEnv = some [Event.pbInit, Event.sleep 2000, Event.reboot] :=
  (mainTrace_structure failEnv).1 rfl

/-! ## C10: every reachable divl call passes a NULL remainder pointer -/

/-- The events of one loop iteration contain no `divl` call with a
non-NULL remainder pointer. -/
lemma iterBody_no_store (env : Env) (f n : Nat) (evs : List Event)
    (h : iterBody env f n = some evs) :
    evs.all (fun e => !remainderPtrSupplied e) = true := by
  by_cases hf : f = 0
  · rw [hf, iterBody_none_of_zero] at h
    cases h
  · cases htsc : tsc_to_ms (sub64 (u64 (env.tscCur n)) (u64 env.tscStart)) with
    | none =>
      rw [iterBody_none_of_tsc env f n hf htsc] at h
      cases h
    | some sd =>
      rw [iterBody_eq env f n hf sd htsc] at h
      injection h with h
      rw [← h]
      simp [remainderPtrSupplied, tsc_to_msEvents]

/-- The loop's events contain no `divl` call with a non-NULL remainder
pointer. -/
lemma mainLoop_no_store (env : Env) (f : Nat) :
    ∀ fuel elapsed n l, mainLoop env f fuel elapsed n = some l →
      l.all (fun e => !remainderPtrSupplied e) = true := by
  intro fuel
  induction fuel with
  | zero =>
    intro elapsed n l h
    cases h
  | succ fuel ih =>
    intro elapsed n l h
    simp only [mainLoop] at h
    by_cases he : elapsed < SAMPLE_END
    · rw [if_pos he] at h
      cases hib : iterBody env f n with
      | none =>
        rw [hib] at h
        cases h
      | some evs =>
        rw [hib] at h
        rcases Option.map_eq_some'.mp h with ⟨rest, hrest, hfl⟩
        rw [← hfl]
        have h1 := iterBody_no_store env f n evs hib
        have h2 := ih (elapsed + SAMPLE_STEP) (n + 1) rest hrest
        rw [List.all_append, List.all_cons, h1, h2]
        rfl
    · rw [if_neg he] at h
      injection h with h
      rw [← h]
      rfl

/-- C10: in every run of the program, every `divl` call in the trace was
passed a NULL remainder pointer (the single call site, in `tsc_to_ms`,
discards the remainder), and a `divl` call with a NULL pointer leaves the
remainder cell untouched — the store branch never executes. -/
theorem divl_call_sites_null :
    (∀ env t, mainTrace env = some t →
      t.all (fun e => !remainderPtrSupplied e) = true) ∧
    (∀ D V j res, divl D V none j = some res → res.2 = none) := by
  constructor
  · intro env t ht
    by_cases h : env.pbInitFails
    · simp only [mainTrace, h, if_true] at ht
      injection ht with ht
      rw [← ht]
      rfl
    · simp only [mainTrace, h, Bool.false_eq_true, if_false] at ht
      rcases Option.map_eq_some'.mp ht with ⟨l, hl, hfl⟩
      rw [← hfl]
      have h1 := mainLoop_no_store env (u32 env.perfFreqRaw / 1000)
        SAMPLE_END 0 0 l hl
      simp only [List.all_append, List.all_cons, h1]
      rfl
  · intro D V j res h
    unfold divl at h
    by_cases hc : V = 0 ∨ 2 ^ 32 ≤ D / V
    · rw [if_pos hc] at h
      cases h
    · rw [if_neg hc] at h
      injection h with h
      rw [← h]

/-- C10 witness: the theorem applied to the failing-`pb_init` run, whose
trace is concrete. -/
theorem divl_call_sites_null_witness :
    ([Event.pbInit, Event.sleep 2000, Event.reboot].all
      (fun e => !remainderPtrSupplied e)) = true :=
  divl_call_sites_null.1 failEnv [Event.pbInit, Event.sleep 2000, Event.reboot]
    (by rfl)

end Xbtests
